import Mathlib

/-!
Shallow embedding of the landlab flow-routing and overland-flow numerical
cores:

* `src/landlab/components/flow_routing/flow_direction_DN.py`
  (`flow_directions`, `grid_flow_directions`), and
* `src/landlab/components/overland_flow/generate_overland_flow_DEM_fields.py`
  (`OverlandFlow.flow_across_grid`).

Node and link scalar fields are embedded as functions `ℕ → ℚ` together with
explicit element counts (`num_nodes`, `num_links`); numpy reductions
(`amax`, `amin`) become folds over `List.range`.  External collaborators
(the grid library's gradient/divergence/max-of-endpoints operators and the
floating-point `sqrt` and `**` routines, none of which are part of the
sources under verification) are passed in as explicit function parameters.
-/

namespace Landlab

/-- Numpy reduction `np.amin` of a list of rationals (`0` on the empty list, which numpy
would reject; every use below is guarded by a nonempty range). -/
def qmin (l : List ℚ) : ℚ :=
  match l with
  | [] => 0
  | x :: xs => xs.foldl min x

/-- Numpy reduction `np.amax` of a list of rationals (`0` on the empty list). -/
def qmax (l : List ℚ) : ℚ :=
  match l with
  | [] => 0
  | x :: xs => xs.foldl max x

theorem foldl_min_le_init (l : List ℚ) (x : ℚ) : l.foldl min x ≤ x := by
  induction l generalizing x with
  | nil => exact le_refl x
  | cons y ys ih =>
      calc (y :: ys).foldl min x = ys.foldl min (min x y) := rfl
        _ ≤ min x y := ih (min x y)
        _ ≤ x := min_le_left x y

theorem foldl_min_le_mem (l : List ℚ) (x y : ℚ) (hy : y ∈ l) :
    l.foldl min x ≤ y := by
  induction l generalizing x with
  | nil => cases hy
  | cons z zs ih =>
      rcases List.mem_cons.mp hy with h | h
      · subst h
        calc (y :: zs).foldl min x = zs.foldl min (min x y) := rfl
          _ ≤ min x y := foldl_min_le_init zs (min x y)
          _ ≤ y := min_le_right x y
      · exact ih (min x z) h

theorem qmin_le_mem (l : List ℚ) (y : ℚ) (hy : y ∈ l) : qmin l ≤ y := by
  cases l with
  | nil => cases hy
  | cons x xs =>
      rcases List.mem_cons.mp hy with h | h
      · subst h; exact foldl_min_le_init xs y
      · exact foldl_min_le_mem xs x y h

theorem foldl_min_nonneg (l : List ℚ) (x : ℚ) (hx : 0 ≤ x)
    (hl : ∀ y ∈ l, 0 ≤ y) : 0 ≤ l.foldl min x := by
  induction l generalizing x with
  | nil => exact hx
  | cons z zs ih =>
      refine ih (min x z) (le_min hx (hl z (List.mem_cons_self z zs))) ?_
      exact fun y hy => hl y (List.mem_cons_of_mem z hy)

theorem qmin_nonneg (l : List ℚ) (hl : ∀ y ∈ l, 0 ≤ y) : 0 ≤ qmin l := by
  cases l with
  | nil => exact le_refl 0
  | cons x xs =>
      exact foldl_min_nonneg xs x (hl x (List.mem_cons_self x xs))
        (fun y hy => hl y (List.mem_cons_of_mem x hy))

/-! ## flow_direction_DN.py -/

/-- Sentinel `BAD_INDEX_VALUE`, used as the value for an unassigned receiver link. -/
def UNDEFINED_INDEX : ℕ := 2147483647

/-- Single-element numpy array assignment `arr[i] = v` on a field embedded
as a function. -/
def upd {α : Type} (f : ℕ → α) (i : ℕ) (v : α) : ℕ → α :=
  fun n => if n = i then v else f n

/-- The three per-node arrays mutated by the link loop of `flow_directions`. -/
structure FlowDirState where
  receiver : ℕ → ℕ
  steepest_slope : ℕ → ℚ
  receiver_link : ℕ → ℕ

/-- Result record of `flow_directions`. -/
structure FlowDirResult where
  receiver : ℕ → ℕ
  steepest_slope : ℕ → ℚ
  sink : List ℕ
  receiver_link : ℕ → ℕ

/-- Initial state of the link loop: every node its own receiver, slope `0`,
receiver link `UNDEFINED_INDEX` (`flow_direction_DN.py`, lines 210-213). -/
def fd_init : FlowDirState :=
  { receiver := fun n => n
    steepest_slope := fun _ => 0
    receiver_link := fun _ => UNDEFINED_INDEX }

/-- Body of the link loop of `flow_directions` (lines 235-248): for link `i`
with endpoints `f = fromnode i`, `t = tonode i`, the higher endpoint is a
candidate donor; it is (re)assigned exactly when the slope toward the lower
endpoint strictly exceeds its currently recorded steepest slope. -/
def fd_step (elev : ℕ → ℚ) (active_links : ℕ → ℕ) (fromnode tonode : ℕ → ℕ)
    (link_slope : ℕ → ℚ) (s : FlowDirState) (i : ℕ) : FlowDirState :=
  let f := fromnode i
  let t := tonode i
  if elev f > elev t ∧ link_slope i > s.steepest_slope f then
    { receiver := upd s.receiver f t
      steepest_slope := upd s.steepest_slope f (link_slope i)
      receiver_link := upd s.receiver_link f (active_links i) }
  else if elev t > elev f ∧ -link_slope i > s.steepest_slope t then
    { receiver := upd s.receiver t f
      steepest_slope := upd s.steepest_slope t (-link_slope i)
      receiver_link := upd s.receiver_link t (active_links i) }
  else s

/-- The full link loop `for i in xrange(len(fromnode))`. -/
def fd_loop (elev : ℕ → ℚ) (active_links : ℕ → ℕ) (fromnode tonode : ℕ → ℕ)
    (link_slope : ℕ → ℚ) (num_links : ℕ) : FlowDirState :=
  (List.range num_links).foldl
    (fd_step elev active_links fromnode tonode link_slope) fd_init

/-- Whether node `n` is listed in the optional `baselevel_nodes` argument
(`None` means no node is). -/
def isBaselevel (baselevel_nodes : Option (List ℕ)) (n : ℕ) : Bool :=
  match baselevel_nodes with
  | none => false
  | some l => n ∈ l

/-- The function `flow_directions` (lines 209-291).  The `try` block at lines 227-231
raises `AttributeError` unconditionally (`raise AttributeError  #hardcoded
for now`) before ever touching `grid`, so the `except` branch — the per-link
loop, which never reads `grid` — is always executed; the vectorized raster
branch in the `else` clause is unreachable.  The `grid` argument is
therefore never used.  After the loop, baselevel nodes are forced to be
their own receivers (lines 283-284; their recorded steepest slope is left
untouched), and the sinks are the nodes that are their own receivers
(line 289, over `node_id = numpy.arange(num_nodes)`). -/
def flow_directions (elev : ℕ → ℚ) (active_links : ℕ → ℕ)
    (fromnode tonode : ℕ → ℕ) (link_slope : ℕ → ℚ)
    (num_links num_nodes : ℕ) (G : Type) (grid : Option G)
    (baselevel_nodes : Option (List ℕ)) : FlowDirResult :=
  let s := fd_loop elev active_links fromnode tonode link_slope num_links
  let receiver := fun n => if isBaselevel baselevel_nodes n then n else s.receiver n
  { receiver := receiver
    steepest_slope := s.steepest_slope
    sink := (List.range num_nodes).filter (fun n => n = receiver n)
    receiver_link := s.receiver_link }

/-! ### Braun & Willett 10-node example (doctest of `flow_directions`) -/

/-- Elevations of the Braun & Willett (2012) 10-node test network. -/
def zBW : ℕ → ℚ :=
  fun n => [12/5, 1, 11/5, 3, 0, 11/10, 2, 23/10, 31/10, 16/5].getD n 0

/-- Array `fromnode` of the Braun & Willett network. -/
def fnBW : ℕ → ℕ :=
  fun i => [1, 4, 4, 0, 1, 2, 5, 1, 5, 6, 7, 7, 8, 6, 3, 3, 2, 0].getD i 0

/-- Array `tonode` of the Braun & Willett network. -/
def tnBW : ℕ → ℕ :=
  fun i => [4, 5, 7, 1, 2, 5, 6, 5, 7, 7, 8, 9, 9, 8, 8, 6, 3, 3].getD i 0

/-- Link slopes `s = z[fn] - z[tn]` (unit link length, positive downhill). -/
def slopeBW : ℕ → ℚ := fun i => zBW (fnBW i) - zBW (tnBW i)

/-- The routing result on the Braun & Willett network (no grid, no
baselevel nodes, all 18 links active). -/
def resultBW : FlowDirResult :=
  flow_directions zBW (fun i => i) fnBW tnBW slopeBW 18 10 Unit none none

/-- Two-node example: node 0 (elevation 1) drains to node 1 (elevation 0)
along the single link, and node 0 is then declared a baselevel node. -/
def elevTwo : ℕ → ℚ := fun n => [1, 0].getD n 0

/-- Result of `flow_directions` on the two-node example with `baselevel_nodes=[0]`:
the link loop assigns node 0 the receiver 1 with steepest slope 1, and the
baselevel override then resets only its receiver. -/
def resultBase : FlowDirResult :=
  flow_directions elevTwo (fun i => i) (fun _ => 0) (fun _ => 1) (fun _ => 1)
    1 2 Unit none (some [0])

/-- The loop invariant of the link loop of `flow_directions`: recorded
steepest slopes are nonnegative, a node's slope is zero exactly when the
node is its own receiver, and an assigned receiver is strictly lower than
its donor. -/
def FDInv (elev : ℕ → ℚ) (s : FlowDirState) : Prop :=
  ∀ n, 0 ≤ s.steepest_slope n ∧
    (s.steepest_slope n = 0 ↔ s.receiver n = n) ∧
    (s.receiver n ≠ n → elev (s.receiver n) < elev n)

/-! ## grid_flow_directions (raster path) -/

/-- A raster cell: its node id and the node ids of its four face
neighbors. -/
structure RasterCell where
  node : ℕ
  nbrs : List ℕ

/-- Modelled from the spec: `calculate_steepest_descent_across_cell_faces`
is imported from `landlab.grid.raster_funcs`, which is not among the
sources under verification.  Per the spec's raster-path description and the
doctest of `grid_flow_directions` (whose pre-clip values it must
reproduce), it returns, for each cell, the minimum gradient
`(elev[neighbor] - elev[node]) / dx` over the cell's face neighbors
together with the neighbor attaining it (first minimum wins; a cell
without neighbors yields `(0, node)`). -/
def steepest_descent_of_cell (dx : ℚ) (elev : ℕ → ℚ) (c : RasterCell) : ℚ × ℕ :=
  match c.nbrs with
  | [] => (0, c.node)
  | nb :: rest =>
      rest.foldl
        (fun best x =>
          if (elev x - elev c.node) / dx < best.1
          then ((elev x - elev c.node) / dx, x) else best)
        ((elev nb - elev c.node) / dx, nb)

/-- The receiver/slope pair produced for one cell by
`grid_flow_directions`: the steepest-descent result across the cell's
faces, with the receiver reset to the cell's own node and the slope set to
exactly `0.` when the gradient is `>= 0.` (the per-cell composition of the
source's arraywise `numpy.where(slope >= 0.)` masking, lines 102-104). -/
def cell_flow_direction (dx : ℚ) (elev : ℕ → ℚ) (c : RasterCell) : ℕ × ℚ :=
  let sd := steepest_descent_of_cell dx elev c
  if 0 ≤ sd.1 then (c.node, 0) else (sd.2, sd.1)

/-- The function `grid_flow_directions` (`flow_direction_DN.py`, lines 99-106). -/
def grid_flow_directions (dx : ℚ) (elev : ℕ → ℚ) (cells : List RasterCell) :
    List (ℕ × ℚ) :=
  cells.map (cell_flow_direction dx elev)

/-- Node elevations of the 4×5 doctest raster (node 0 at bottom left). -/
def zRaster : ℕ → ℚ :=
  fun n => [5, 0, 5, 5, 5, 5, 1, 2, 2, 5, 5, 3, 4, 3, 5, 5, 5, 5, 5, 5].getD n 5

/-- The six cells (interior nodes) of the 4×5 doctest raster with their
east, north, west, south neighbor nodes. -/
def cellsRaster : List RasterCell :=
  [⟨6, [7, 11, 5, 1]⟩, ⟨7, [8, 12, 6, 2]⟩, ⟨8, [9, 13, 7, 3]⟩,
   ⟨11, [12, 16, 10, 6]⟩, ⟨12, [13, 17, 11, 7]⟩, ⟨13, [14, 18, 12, 8]⟩]

/-! ## generate_overland_flow_DEM_fields.py -/

/-- Gravitational acceleration, set to `9.8` in `OverlandFlow.__init__`
(line 115). -/
def g : ℚ := 49/5

/-- The grid-collaborator operations consumed by `flow_across_grid`
(external to the sources under verification; supplied as parameters).
Field names follow the grid methods the source calls. -/
structure GridOps where
  numNodes : ℕ
  numLinks : ℕ
  dx : ℚ
  max_of_link_end_node_values : (ℕ → ℚ) → ℕ → ℚ
  calculate_gradients_at_active_links : (ℕ → ℚ) → ℕ → ℚ
  calculate_flux_divergence_at_nodes : (ℕ → ℚ) → ℕ → ℚ
  calculate_steepest_descent_on_nodes : (ℕ → ℚ) → (ℕ → ℚ) → ℕ → ℚ
  get_active_cell_node_ids : List ℕ

/-- Modelled from the spec: the floating-point routines `np.sqrt` and
`** (10./3.)` used by the solver live in the numerical runtime, not in the
sources under verification; they are abstracted as rational-valued
functions (each concrete instance below is exact, or a stated rational
approximation, at the points where it is evaluated). -/
structure NumericOps where
  sqrtQ : ℚ → ℚ
  powTenThirds : ℚ → ℚ

/-- The configuration constants popped in `OverlandFlow.__init__`
(lines 90-93) with their default values: `h_init=0.001`, `alpha=0.2`,
`rho=1000`, `Mannings_n=0.04`. -/
structure OverlandConfig where
  h_init : ℚ := 1/1000
  alpha : ℚ := 1/5
  rho : ℚ := 1000
  m_n : ℚ := 1/25

/-- The quantity `self.m_n_sq = self.m_n*self.m_n` (line 118) — computed in
`__init__` but never read by the flow methods. -/
def m_n_sq (cfg : OverlandConfig) : ℚ := cfg.m_n * cfg.m_n

/-- The per-invocation parameters of `flow_across_grid`. -/
structure OFParams where
  cfg : OverlandConfig
  gd : GridOps
  nops : NumericOps
  z : ℕ → ℚ
  rainfall_duration : ℚ
  model_duration : ℚ

/-- The state carried between iterations of the main loop: water depth
`h`, link discharge `q`, shear stress `tau`, the (mutated) rainfall
intensity, and the elapsed time. -/
structure OFState where
  h : ℕ → ℚ
  q : ℕ → ℚ
  tau : ℕ → ℚ
  rainfall_intensity : ℚ
  elapsed_time : ℚ

/-- Courant-style trial step `dtmax = alpha*dx/np.sqrt(g*np.amax(h))`
(line 402). -/
def courant_dtmax (p : OFParams) (s : OFState) : ℚ :=
  p.cfg.alpha * p.gd.dx / p.nops.sqrtQ (g * qmax ((List.range p.gd.numNodes).map s.h))

/-- The assignment `dt = min(dtmax, self.model_duration)` (line 405).  Note this clamps to
the *total* model duration, not the remaining time, and is overwritten by
the limiter block (lines 435-441) before `dt` is ever used. -/
def step_dt_first (p : OFParams) (s : OFState) : ℚ :=
  min (courant_dtmax p s) p.model_duration

/-- Water surface `w = self.h + self.z` (line 412). -/
def step_w (z h : ℕ → ℚ) : ℕ → ℚ := fun n => h n + z n

/-- Effective flow depth `hflow = wmax - zmax` at links (lines 411-414). -/
def step_hflow (p : OFParams) (s : OFState) : ℕ → ℚ := fun l =>
  p.gd.max_of_link_end_node_values (step_w p.z s.h) l -
    p.gd.max_of_link_end_node_values p.z l

/-- Discharge update (lines 420-421):
`q = (q - g*hflow*dtmax*slope)/(1 + g*hflow*dtmax*0.06*0.06*|q|/hflow**(10/3))`.
The source hardcodes the literal `0.06*0.06` here; `self.m_n_sq` is not
used. -/
def step_q (p : OFParams) (s : OFState) : ℕ → ℚ := fun l =>
  let dtmax := courant_dtmax p s
  let hflow := step_hflow p s l
  let slope := p.gd.calculate_gradients_at_active_links (step_w p.z s.h) l
  (s.q l - g * hflow * dtmax * slope) /
    (1 + g * hflow * dtmax * (6/100) * (6/100) * |s.q l| / p.nops.powTenThirds hflow)

/-- Rainfall-intensity update (lines 427-428): zeroed once the elapsed time
strictly exceeds the rainfall duration. -/
def step_ri (p : OFParams) (s : OFState) : ℚ :=
  if s.elapsed_time > p.rainfall_duration then 0 else s.rainfall_intensity

/-- Depth rate `dhdt = rainfall_intensity - dqds` (lines 424-431), with
`dqds` the flux divergence of the updated discharges. -/
def step_dhdt (p : OFParams) (s : OFState) : ℕ → ℚ := fun n =>
  step_ri p s - p.gd.calculate_flux_divergence_at_nodes (step_q p s) n

/-- The executed step size (lines 435-441): if some node's `dhdt` is
negative, `dt = np.min([dtmax, alpha*np.amin(-h/dhdt over those nodes),
model_duration])`; otherwise `dt = dtmax` (the earlier
`min(dtmax, model_duration)` is discarded). -/
def step_dt (p : OFParams) (s : OFState) : ℚ :=
  if qmin ((List.range p.gd.numNodes).map (step_dhdt p s)) < 0 then
    min (courant_dtmax p s)
      (min (p.cfg.alpha * qmin (((List.range p.gd.numNodes).filter
          (fun n => step_dhdt p s n < 0)).map (fun n => -s.h n / step_dhdt p s n)))
        p.model_duration)
  else courant_dtmax p s

/-- Depth update (line 444), applied at interior nodes only. -/
def step_h (p : OFParams) (s : OFState) : ℕ → ℚ := fun n =>
  if n ∈ p.gd.get_active_cell_node_ids then
    s.h n + step_dhdt p s n * step_dt p s
  else s.h n

/-- One iteration of the main loop of `flow_across_grid` (lines 399-464):
discharge and depth updates, shear-stress recomputation behind the
`q.any()*dx > 0.2` guard followed by unconditional clipping of negative
stresses, rainfall update, and `elapsed_time += dt`. -/
def flow_step (p : OFParams) (s : OFState) : OFState :=
  let h2 := step_h p s
  let q2 := step_q p s
  let slopes := p.gd.calculate_steepest_descent_on_nodes (step_w p.z h2)
    (p.gd.calculate_gradients_at_active_links (step_w p.z s.h))
  let anyq := (List.range p.gd.numLinks).any (fun l => decide (q2 l ≠ 0))
  let tau1 := if (if anyq then p.gd.dx else 0) > 1/5 then
      fun n => p.cfg.rho * g * slopes n * h2 n
    else s.tau
  { h := h2
    q := q2
    tau := fun n => if tau1 n < 0 then 0 else tau1 n
    rainfall_intensity := step_ri p s
    elapsed_time := s.elapsed_time + step_dt p s }

/-- The main loop `while self.elapsed_time < self.model_duration`
(line 399), with explicit fuel to keep the definition total. -/
def flow_across_grid (p : OFParams) : ℕ → OFState → OFState
  | 0, s => s
  | fuel + 1, s =>
      if s.elapsed_time < p.model_duration then
        flow_across_grid p fuel (flow_step p s)
      else s

/-- The spec's statement of the discharge update (§4.2 step 5), with the
configured Manning coefficient `n_coef` in place of the source's hardcoded
literal; used to compare the source update against the spec's. -/
def q_update_spec (n_coef g2 hflow dtmax slope q powval : ℚ) : ℚ :=
  (q - g2 * hflow * dtmax * slope) /
    (1 + g2 * hflow * dtmax * n_coef * n_coef * |q| / powval)

/-! ### Concrete solver instances -/

/-- A one-node, zero-link grid. -/
def gdOne : GridOps :=
  { numNodes := 1
    numLinks := 0
    dx := 1
    max_of_link_end_node_values := fun _ _ => 0
    calculate_gradients_at_active_links := fun _ _ => 0
    calculate_flux_divergence_at_nodes := fun _ _ => 0
    calculate_steepest_descent_on_nodes := fun _ _ _ => 0
    get_active_cell_node_ids := [] }

/-- Square root used with `gdOne`: the solver evaluates it only at
`g*amax(h) = 9.8*(5/49) = 1`, where the value `1` is exact. -/
def sqrtOne : ℚ → ℚ := fun x => if x = 1 then 1 else 0

/-- Numeric routines for the one-node instance. -/
def nopsOne : NumericOps := { sqrtQ := sqrtOne, powTenThirds := fun _ => 1 }

/-- Parameters for the overshoot example: default configuration, one-node
grid, flat bed, rainfall long over, model duration 10 s. -/
def pOver : OFParams :=
  { cfg := {}
    gd := gdOne
    nops := nopsOne
    z := fun _ => 0
    rainfall_duration := 0
    model_duration := 10 }

/-- State for the overshoot example: uniform depth `5/49` m, no discharge,
elapsed time 9.975 s — only 0.025 s short of the model duration. -/
def sOver : OFState :=
  { h := fun _ => 5/49
    q := fun _ => 0
    tau := fun _ => 0
    rainfall_intensity := 0
    elapsed_time := 399/40 }

/-- A two-node, one-link grid with spacing 5, interior node 0; the link's
endpoints are nodes 0 and 1. -/
def gdTwo : GridOps :=
  { numNodes := 2
    numLinks := 1
    dx := 5
    max_of_link_end_node_values := fun f _ => max (f 0) (f 1)
    calculate_gradients_at_active_links := fun f _ => (f 1 - f 0) / 5
    calculate_flux_divergence_at_nodes := fun qf n => if n = 0 then qf 0 / 5 else -qf 0 / 5
    calculate_steepest_descent_on_nodes := fun _ _ _ => 0
    get_active_cell_node_ids := [0] }

/-- Numeric routines for the two-node instance: the solver evaluates
`sqrtQ` only at `g*amax(h) = 1` (exact value `1`) and `powTenThirds` only
at `hflow = 5/49`, where `(5/49)^(10/3) ≈ 0.000496` is represented by the
rational `1/2016`. -/
def nopsTwo : NumericOps :=
  { sqrtQ := fun x => if x = 1 then 1 else 0
    powTenThirds := fun x => if x = 5/49 then 1/2016 else 0 }

/-- Parameters for the Manning-coefficient example: default configuration
(`Mannings_n = 0.04`), two-node grid, flat bed. -/
def pMan : OFParams :=
  { cfg := {}
    gd := gdTwo
    nops := nopsTwo
    z := fun _ => 0
    rainfall_duration := 1
    model_duration := 10 }

/-- State for the Manning-coefficient example: uniform depth `5/49` m
(so `dtmax = 1` and `hflow = 5/49`), unit discharge 1 on the link. -/
def sMan : OFState :=
  { h := fun _ => 5/49
    q := fun _ => 1
    tau := fun _ => 0
    rainfall_intensity := 0
    elapsed_time := 0 }

/-- One-node grid with node 0 interior, for the depth-nonnegativity
witness. -/
def gdPos : GridOps :=
  { numNodes := 1
    numLinks := 0
    dx := 1
    max_of_link_end_node_values := fun _ _ => 0
    calculate_gradients_at_active_links := fun _ _ => 0
    calculate_flux_divergence_at_nodes := fun _ _ => 0
    calculate_steepest_descent_on_nodes := fun _ _ _ => 0
    get_active_cell_node_ids := [0] }

/-- Numeric routines for the depth witness (`sqrtQ` is evaluated only at
`g*amax(h) = 1`, where `1` is exact). -/
def nopsPos : NumericOps := { sqrtQ := fun _ => 1, powTenThirds := fun _ => 1 }

/-- Parameters for the depth-nonnegativity witness. -/
def pPos : OFParams :=
  { cfg := {}
    gd := gdPos
    nops := nopsPos
    z := fun _ => 0
    rainfall_duration := 1
    model_duration := 1 }

/-- State for the depth-nonnegativity witness: uniform depth `5/49` m. -/
def sPos : OFState :=
  { h := fun _ => 5/49
    q := fun _ => 0
    tau := fun _ => 0
    rainfall_intensity := 0
    elapsed_time := 0 }

/-! ## Theorems: flow_directions -/

theorem upd_self {α : Type} (f : ℕ → α) (i : ℕ) (v : α) : upd f i v i = v := by
  simp [upd]

theorem upd_ne {α : Type} (f : ℕ → α) (i n : ℕ) (v : α) (h : n ≠ i) :
    upd f i v n = f n := by
  simp [upd, h]

theorem fdInv_init (elev : ℕ → ℚ) : FDInv elev fd_init := by
  intro n
  exact ⟨le_refl 0, iff_of_true rfl rfl, fun h => absurd rfl h⟩

theorem fdInv_step (elev : ℕ → ℚ) (al : ℕ → ℕ) (fn tn : ℕ → ℕ) (ls : ℕ → ℚ)
    (s : FlowDirState) (i : ℕ) (hs : FDInv elev s) :
    FDInv elev (fd_step elev al fn tn ls s i) := by
  unfold fd_step
  by_cases h1 : elev (fn i) > elev (tn i) ∧ ls i > s.steepest_slope (fn i)
  · rw [if_pos h1]
    intro n
    dsimp only
    rcases eq_or_ne n (fn i) with hn | hn
    · subst hn
      have hsl : 0 < ls i := lt_of_le_of_lt (hs (fn i)).1 h1.2
      have hne : tn i ≠ fn i := by
        intro he
        rw [he] at h1
        exact lt_irrefl _ h1.1
      rw [upd_self, upd_self]
      exact ⟨hsl.le, iff_of_false (ne_of_gt hsl) hne, fun _ => h1.1⟩
    · rw [upd_ne _ _ _ _ hn, upd_ne _ _ _ _ hn]
      exact hs n
  · rw [if_neg h1]
    by_cases h2 : elev (tn i) > elev (fn i) ∧ -ls i > s.steepest_slope (tn i)
    · rw [if_pos h2]
      intro n
      dsimp only
      rcases eq_or_ne n (tn i) with hn | hn
      · subst hn
        have hsl : 0 < -ls i := lt_of_le_of_lt (hs (tn i)).1 h2.2
        have hne : fn i ≠ tn i := by
          intro he
          rw [he] at h2
          exact lt_irrefl _ h2.1
        rw [upd_self, upd_self]
        exact ⟨hsl.le, iff_of_false (ne_of_gt hsl) hne, fun _ => h2.1⟩
      · rw [upd_ne _ _ _ _ hn, upd_ne _ _ _ _ hn]
        exact hs n
    · rw [if_neg h2]
      exact hs

theorem fdInv_foldl (elev : ℕ → ℚ) (al : ℕ → ℕ) (fn tn : ℕ → ℕ) (ls : ℕ → ℚ)
    (L : List ℕ) (s : FlowDirState) (hs : FDInv elev s) :
    FDInv elev (L.foldl (fd_step elev al fn tn ls) s) := by
  induction L generalizing s with
  | nil => exact hs
  | cons i L ih => exact ih _ (fdInv_step elev al fn tn ls s i hs)

theorem fdInv_loop (elev : ℕ → ℚ) (al : ℕ → ℕ) (fn tn : ℕ → ℕ) (ls : ℕ → ℚ)
    (nl : ℕ) : FDInv elev (fd_loop elev al fn tn ls nl) :=
  fdInv_foldl elev al fn tn ls (List.range nl) fd_init (fdInv_init elev)

theorem flow_directions_receiver_off_baselevel (elev : ℕ → ℚ) (al : ℕ → ℕ)
    (fn tn : ℕ → ℕ) (ls : ℕ → ℚ) (nl nn : ℕ) (G : Type) (gr : Option G)
    (bl : Option (List ℕ)) (n : ℕ) (hn : isBaselevel bl n = false) :
    (flow_directions elev al fn tn ls nl nn G gr bl).receiver n =
      (fd_loop elev al fn tn ls nl).receiver n := by
  simp [flow_directions, hn]

theorem flow_directions_slope_eq (elev : ℕ → ℚ) (al : ℕ → ℕ)
    (fn tn : ℕ → ℕ) (ls : ℕ → ℚ) (nl nn : ℕ) (G : Type) (gr : Option G)
    (bl : Option (List ℕ)) :
    (flow_directions elev al fn tn ls nl nn G gr bl).steepest_slope =
      (fd_loop elev al fn tn ls nl).steepest_slope := rfl

/-- C1 counterexample: on the two-node grid with elevations `[1, 0]`, one
link from node 0 to node 1 of slope 1, and `baselevel_nodes = [0]`, the
returned arrays have `receiver[0] = 0` but `steepest_slope[0] = 1 ≠ 0`:
the claimed equivalence `steepest_slope[n] = 0 ⇔ receiver[n] = n` fails at
node 0, because the baselevel override resets the receiver but not the
recorded slope. -/
theorem baselevel_breaks_sink_closure :
    ¬ (resultBase.steepest_slope 0 = 0 ↔ resultBase.receiver 0 = 0) := by
  have h1 : resultBase.receiver 0 = 0 := by
    norm_num [resultBase, flow_directions, fd_loop, fd_step, fd_init, elevTwo,
      upd, isBaselevel, List.range_succ]
  have h2 : resultBase.steepest_slope 0 = 1 := by
    norm_num [resultBase, flow_directions, fd_loop, fd_step, fd_init, elevTwo,
      upd, isBaselevel, List.range_succ]
  intro hiff
  have := hiff.mpr h1
  rw [h2] at this
  exact one_ne_zero this

/-- C1 (amended): for every node `n` not listed in `baselevel_nodes`, the
returned arrays of `flow_directions` satisfy
`steepest_slope[n] = 0 ⇔ receiver[n] = n`; a baselevel node keeps
`receiver[n] = n` but may retain the positive steepest slope recorded
before the override. -/
theorem sink_closure_off_baselevel (elev : ℕ → ℚ) (al : ℕ → ℕ)
    (fn tn : ℕ → ℕ) (ls : ℕ → ℚ) (nl nn : ℕ) (G : Type) (gr : Option G)
    (bl : Option (List ℕ)) (n : ℕ) (hn : isBaselevel bl n = false) :
    ((flow_directions elev al fn tn ls nl nn G gr bl).steepest_slope n = 0 ↔
      (flow_directions elev al fn tn ls nl nn G gr bl).receiver n = n) := by
  rw [flow_directions_slope_eq, flow_directions_receiver_off_baselevel
    elev al fn tn ls nl nn G gr bl n hn]
  exact (fdInv_loop elev al fn tn ls nl n).2.1

/-- Witness for `sink_closure_off_baselevel` at node 1 of the two-node
baselevel example. -/
theorem sink_closure_off_baselevel_witness :
    isBaselevel (some [0]) 1 = false ∧
    ((flow_directions elevTwo (fun i => i) (fun _ => 0) (fun _ => 1)
        (fun _ => 1) 1 2 Unit none (some [0])).steepest_slope 1 = 0 ↔
      (flow_directions elevTwo (fun i => i) (fun _ => 0) (fun _ => 1)
        (fun _ => 1) 1 2 Unit none (some [0])).receiver 1 = 1) :=
  ⟨rfl, sink_closure_off_baselevel elevTwo (fun i => i) (fun _ => 0)
    (fun _ => 1) (fun _ => 1) 1 2 Unit none (some [0]) 1 rfl⟩

/-- C5: on the Braun & Willett 10-node network with elevations
`[2.4, 1.0, 2.2, 3.0, 0.0, 1.1, 2.0, 2.3, 3.1, 3.2]`, the 18 listed links
(slopes the elevation differences), all links active and no baselevel
nodes, `flow_directions` returns
`receiver = [1, 4, 1, 6, 4, 4, 5, 4, 6, 7]` and `sinks = [4]`. -/
theorem braun_willett_routing :
    ((List.range 10).map resultBW.receiver) = [1, 4, 1, 6, 4, 4, 5, 4, 6, 7] ∧
    resultBW.sink = [4] := by
  norm_num [resultBW, flow_directions, fd_loop, fd_step, fd_init, zBW, fnBW,
    tnBW, slopeBW, upd, isBaselevel, List.range_succ]

/-- C9: the result of `flow_directions` does not depend on the `grid`
argument (of any type, `None` included): the hardcoded
`raise AttributeError` at line 228 precedes any use of `grid`, so the
per-link loop, which never reads it, is always the path taken. -/
theorem flow_directions_grid_independent (elev : ℕ → ℚ) (al : ℕ → ℕ)
    (fn tn : ℕ → ℕ) (ls : ℕ → ℚ) (nl nn : ℕ) (G1 G2 : Type)
    (gr1 : Option G1) (gr2 : Option G2) (bl : Option (List ℕ)) :
    flow_directions elev al fn tn ls nl nn G1 gr1 bl =
      flow_directions elev al fn tn ls nl nn G2 gr2 bl := rfl

/-- C10: for every node `n` not in `baselevel_nodes` with
`receiver[n] ≠ n`, the receiver is strictly lower than `n`
(`elev[n] > elev[receiver[n]]`, whatever the values in `link_slope`), and
the recorded steepest slope is strictly positive. -/
theorem assigned_receiver_strictly_lower (elev : ℕ → ℚ) (al : ℕ → ℕ)
    (fn tn : ℕ → ℕ) (ls : ℕ → ℚ) (nl nn : ℕ) (G : Type) (gr : Option G)
    (bl : Option (List ℕ)) (n : ℕ) (hn : isBaselevel bl n = false)
    (hr : (flow_directions elev al fn tn ls nl nn G gr bl).receiver n ≠ n) :
    elev ((flow_directions elev al fn tn ls nl nn G gr bl).receiver n) < elev n ∧
    0 < (flow_directions elev al fn tn ls nl nn G gr bl).steepest_slope n := by
  rw [flow_directions_receiver_off_baselevel elev al fn tn ls nl nn G gr bl n hn] at hr ⊢
  rw [flow_directions_slope_eq]
  have hinv := fdInv_loop elev al fn tn ls nl n
  refine ⟨hinv.2.2 hr, ?_⟩
  rcases lt_or_eq_of_le hinv.1 with h | h
  · exact h
  · exact absurd (hinv.2.1.mp h.symm) hr

/-- Witness for `assigned_receiver_strictly_lower` at node 0 of the
Braun & Willett network (`receiver[0] = 1`). -/
theorem assigned_receiver_strictly_lower_witness :
    isBaselevel none 0 = false ∧
    (zBW ((flow_directions zBW (fun i => i) fnBW tnBW slopeBW 18 10 Unit
        none none).receiver 0) < zBW 0 ∧
      0 < (flow_directions zBW (fun i => i) fnBW tnBW slopeBW 18 10 Unit
        none none).steepest_slope 0) :=
  ⟨rfl, assigned_receiver_strictly_lower zBW (fun i => i) fnBW tnBW slopeBW
    18 10 Unit none none 0 rfl (by
      norm_num [flow_directions, fd_loop, fd_step, fd_init, zBW, fnBW, tnBW,
        slopeBW, upd, isBaselevel, List.range_succ])⟩

/-! ## Theorems: grid_flow_directions -/

theorem sd_fold_charac (dx : ℚ) (elev : ℕ → ℚ) (node : ℕ) (l : List ℕ)
    (b : ℚ × ℕ) (hb : b.1 = (elev b.2 - elev node) / dx) :
    (l.foldl (fun best x =>
        if (elev x - elev node) / dx < best.1
        then ((elev x - elev node) / dx, x) else best) b).1 =
      (elev ((l.foldl (fun best x =>
        if (elev x - elev node) / dx < best.1
        then ((elev x - elev node) / dx, x) else best) b).2) - elev node) / dx := by
  induction l generalizing b with
  | nil => exact hb
  | cons x xs ih =>
      simp only [List.foldl_cons]
      by_cases hlt : (elev x - elev node) / dx < b.1
      · rw [if_pos hlt]
        exact ih _ rfl
      · rw [if_neg hlt]
        exact ih b hb

theorem steepest_descent_charac (dx : ℚ) (elev : ℕ → ℚ) (c : RasterCell) :
    (steepest_descent_of_cell dx elev c).1 =
      (elev ((steepest_descent_of_cell dx elev c).2) - elev c.node) / dx ∨
    steepest_descent_of_cell dx elev c = (0, c.node) := by
  rcases c with ⟨node, nbrs⟩
  cases nbrs with
  | nil => exact Or.inr rfl
  | cons nb rest =>
      left
      exact sd_fold_charac dx elev node rest ((elev nb - elev node) / dx, nb) rfl

/-- C7 counterexample: on the 4×5 doctest raster (elevations as in the
source's example, `dx = 1`), `grid_flow_directions` returns the doctest's
receivers `[1, 6, 8, 6, 7, 8]` with slopes `[-1, -1, 0, -2, -2, -1]`; in
particular the first returned steepest-slope value is `-1 < 0`, refuting
the claim that every returned value is `≥ 0`. -/
theorem grid_flow_directions_negative_slope :
    grid_flow_directions 1 zRaster cellsRaster =
      [(1, -1), (6, -1), (8, 0), (6, -2), (7, -2), (8, -1)] ∧
    ((grid_flow_directions 1 zRaster cellsRaster).getD 0 (0, 0)).2 < 0 := by
  norm_num [grid_flow_directions, cell_flow_direction, steepest_descent_of_cell,
    zRaster, cellsRaster]

/-- C7 (amended): every pair returned by `grid_flow_directions` has
steepest slope `≤ 0`, and the slope is `0` exactly at sink cells (cells
whose receiver is the cell's own node). -/
theorem grid_flow_directions_slope_sign (dx : ℚ) (elev : ℕ → ℚ)
    (cells : List RasterCell) (c : RasterCell) (hc : c ∈ cells)
    (hdx : 0 < dx) :
    cell_flow_direction dx elev c ∈ grid_flow_directions dx elev cells ∧
    (cell_flow_direction dx elev c).2 ≤ 0 ∧
    ((cell_flow_direction dx elev c).2 = 0 ↔
      (cell_flow_direction dx elev c).1 = c.node) := by
  refine ⟨List.mem_map_of_mem _ hc, ?_⟩
  unfold cell_flow_direction
  by_cases hpos : 0 ≤ (steepest_descent_of_cell dx elev c).1
  · rw [if_pos hpos]
    exact ⟨le_refl 0, iff_of_true rfl rfl⟩
  · rw [if_neg hpos]
    push_neg at hpos
    refine ⟨hpos.le, iff_of_false (ne_of_lt hpos) ?_⟩
    rcases steepest_descent_charac dx elev c with h | h
    · rw [h] at hpos
      rcases div_neg_iff.mp hpos with ⟨_, hdx2⟩ | ⟨hnum, _⟩
      · exact absurd hdx (not_lt.mpr hdx2.le)
      · intro he
        have he2 : (steepest_descent_of_cell dx elev c).2 = c.node := he
        rw [he2] at hnum
        simp at hnum
    · rw [h] at hpos
      exact absurd (le_refl (0:ℚ)) (not_le.mpr hpos)

/-- Witness for `grid_flow_directions_slope_sign` at the first cell
(node 6) of the doctest raster. -/
theorem grid_flow_directions_slope_sign_witness :
    (0:ℚ) < 1 ∧
    ((cell_flow_direction 1 zRaster ⟨6, [7, 11, 5, 1]⟩).2 ≤ 0 ∧
      ((cell_flow_direction 1 zRaster ⟨6, [7, 11, 5, 1]⟩).2 = 0 ↔
        (cell_flow_direction 1 zRaster ⟨6, [7, 11, 5, 1]⟩).1 =
          RasterCell.node ⟨6, [7, 11, 5, 1]⟩)) :=
  ⟨by norm_num,
    (grid_flow_directions_slope_sign 1 zRaster cellsRaster ⟨6, [7, 11, 5, 1]⟩
      (by unfold cellsRaster; exact List.mem_cons_self _ _) (by norm_num)).2⟩

/-! ## Theorems: flow_across_grid -/

/-- C2 (amended): the executed step size of every loop iteration respects
the Courant trial bound `dtmax = alpha*dx/sqrt(g*max(depth))` — as does the
pre-limiter value `min(dtmax, model_duration)` — but neither is clamped to
the *remaining* time `model_duration - elapsed_time`, so the last step may
overshoot the requested duration. -/
theorem step_dt_le_courant (p : OFParams) (s : OFState) :
    step_dt p s ≤ courant_dtmax p s ∧ step_dt_first p s ≤ courant_dtmax p s := by
  constructor
  · unfold step_dt
    by_cases hc : qmin ((List.range p.gd.numNodes).map (step_dhdt p s)) < 0
    · rw [if_pos hc]
      exact min_le_left _ _
    · rw [if_neg hc]
  · exact min_le_left _ _

/-- C2 counterexample: with the default configuration on a one-node grid
(depth `5/49` m, so `dtmax = alpha*dx/sqrt(9.8*(5/49)) = 0.2` exactly),
model duration 10 s and elapsed time 9.975 s, the loop condition holds but
the executed step is `dt = 0.2 > 10 - 9.975 = 0.025`, and the step leaves
`elapsed_time = 10.175 > 10`: the step size is not bounded by
`target_duration - elapsed_time`, and the step overshoots. -/
theorem step_overshoots_duration :
    sOver.elapsed_time < pOver.model_duration ∧
    pOver.model_duration - sOver.elapsed_time < step_dt pOver sOver ∧
    pOver.model_duration < (flow_step pOver sOver).elapsed_time := by
  norm_num [flow_step, step_dt, step_dhdt, step_ri, step_q, step_hflow, step_w,
    step_h, courant_dtmax, qmin, qmax, pOver, sOver, gdOne, nopsOne, sqrtOne,
    g, List.range_succ]

/-- C3 (code bug): on a concrete step with `hflow = 5/49`, `dtmax = 1`,
zero water-surface slope and unit discharge, the source's discharge update
(lines 420-421, hardcoded `0.06*0.06`) yields `625/5161 ≈ 0.1211`, whereas
the spec's formula with the configured Manning coefficient
(`Mannings_n = 0.04` by default, whose square `m_n_sq` is computed in
`__init__` but never read) yields `625/2641 ≈ 0.2366`; the two differ. -/
theorem mannings_n_hardcoded :
    step_q pMan sMan 0 = 625/5161 ∧
    q_update_spec (OverlandConfig.m_n {}) g (5/49) 1 0 1 (1/2016) = 625/2641 ∧
    step_q pMan sMan 0 ≠
      q_update_spec (OverlandConfig.m_n {}) g (5/49) 1 0 1 (1/2016) := by
  have h1 : step_q pMan sMan 0 = 625/5161 := by
    norm_num [step_q, step_hflow, step_w, courant_dtmax, qmax, pMan, sMan,
      gdTwo, nopsTwo, g, List.range_succ]
  have h2 : q_update_spec (OverlandConfig.m_n {}) g (5/49) 1 0 1 (1/2016) =
      625/2641 := by
    norm_num [q_update_spec, g]
  refine ⟨h1, h2, ?_⟩
  rw [h1, h2]
  norm_num

/-- C4: if every node's depth is positive at the start of a step and
`0 ≤ alpha ≤ 1` (with the ambient facts that the grid spacing and model
duration are nonnegative, `np.sqrt` is nonnegative, and the interior nodes
are among the grid's nodes), then after the depth update of `flow_step`
every interior node's depth is nonnegative: the drain-time limiter prevents
depth from going negative within the step. -/
theorem step_depth_nonneg (p : OFParams) (s : OFState)
    (halpha0 : 0 ≤ p.cfg.alpha) (halpha1 : p.cfg.alpha ≤ 1)
    (hdx : 0 ≤ p.gd.dx) (hsqrt : ∀ x, 0 ≤ p.nops.sqrtQ x)
    (hdur : 0 ≤ p.model_duration)
    (hint : ∀ m ∈ p.gd.get_active_cell_node_ids, m < p.gd.numNodes)
    (hpos : ∀ m, m < p.gd.numNodes → 0 < s.h m) :
    ∀ n ∈ p.gd.get_active_cell_node_ids, 0 ≤ (flow_step p s).h n := by
  intro n hn
  have hn2 : n < p.gd.numNodes := hint n hn
  have hcn : 0 ≤ courant_dtmax p s :=
    div_nonneg (mul_nonneg halpha0 hdx) (hsqrt _)
  have hhn : (flow_step p s).h n = s.h n + step_dhdt p s n * step_dt p s := by
    show step_h p s n = _
    unfold step_h
    rw [if_pos hn]
  rw [hhn]
  by_cases hsign : 0 ≤ step_dhdt p s n
  · have hdt0 : 0 ≤ step_dt p s := by
      unfold step_dt
      by_cases hc : qmin ((List.range p.gd.numNodes).map (step_dhdt p s)) < 0
      · rw [if_pos hc]
        refine le_min hcn (le_min (mul_nonneg halpha0 ?_) hdur)
        refine qmin_nonneg _ ?_
        intro y hy
        rcases List.mem_map.mp hy with ⟨m, hm, rfl⟩
        have hm2 := List.mem_filter.mp hm
        have hmrange : m < p.gd.numNodes := List.mem_range.mp hm2.1
        have hneg : step_dhdt p s m < 0 := of_decide_eq_true hm2.2
        have hpm := hpos m hmrange
        exact (div_pos_iff.mpr (Or.inr ⟨by linarith, hneg⟩)).le
      · rw [if_neg hc]
        exact hcn
    have hprod : 0 ≤ step_dhdt p s n * step_dt p s := mul_nonneg hsign hdt0
    have hps := hpos n hn2
    linarith
  · push_neg at hsign
    have hmem : step_dhdt p s n ∈ (List.range p.gd.numNodes).map (step_dhdt p s) :=
      List.mem_map_of_mem _ (List.mem_range.mpr hn2)
    have hcond : qmin ((List.range p.gd.numNodes).map (step_dhdt p s)) < 0 :=
      lt_of_le_of_lt (qmin_le_mem _ _ hmem) hsign
    have hdt_eq : step_dt p s = min (courant_dtmax p s)
        (min (p.cfg.alpha * qmin (((List.range p.gd.numNodes).filter
            (fun m => step_dhdt p s m < 0)).map
            (fun m => -s.h m / step_dhdt p s m)))
          p.model_duration) := by
      unfold step_dt
      rw [if_pos hcond]
    have hnfilter : n ∈ (List.range p.gd.numNodes).filter
        (fun m => step_dhdt p s m < 0) :=
      List.mem_filter.mpr ⟨List.mem_range.mpr hn2, decide_eq_true hsign⟩
    have hdrain : -s.h n / step_dhdt p s n ∈
        ((List.range p.gd.numNodes).filter (fun m => step_dhdt p s m < 0)).map
          (fun m => -s.h m / step_dhdt p s m) :=
      List.mem_map_of_mem _ hnfilter
    have hq : qmin (((List.range p.gd.numNodes).filter
        (fun m => step_dhdt p s m < 0)).map
        (fun m => -s.h m / step_dhdt p s m)) ≤ -s.h n / step_dhdt p s n :=
      qmin_le_mem _ _ hdrain
    have hdtle : step_dt p s ≤ p.cfg.alpha * (-s.h n / step_dhdt p s n) := by
      rw [hdt_eq]
      exact le_trans (le_trans (min_le_right _ _) (min_le_left _ _))
        (mul_le_mul_of_nonneg_left hq halpha0)
    have hne : step_dhdt p s n ≠ 0 := ne_of_lt hsign
    have hkey : step_dhdt p s n * (p.cfg.alpha * (-s.h n / step_dhdt p s n)) =
        -(p.cfg.alpha * s.h n) := by
      field_simp
      ring
    have hmul : step_dhdt p s n * (p.cfg.alpha * (-s.h n / step_dhdt p s n)) ≤
        step_dhdt p s n * step_dt p s :=
      mul_le_mul_of_nonpos_left hdtle hsign.le
    rw [hkey] at hmul
    have hps := hpos n hn2
    have hexp : (1 - p.cfg.alpha) * s.h n = s.h n - p.cfg.alpha * s.h n := by
      ring
    have hnonneg : 0 ≤ (1 - p.cfg.alpha) * s.h n :=
      mul_nonneg (by linarith) hps.le
    linarith

/-- Witness for `step_depth_nonneg`: the one-node instance with depth
`5/49` m and the default configuration. -/
theorem step_depth_nonneg_witness :
    (0:ℚ) ≤ pPos.cfg.alpha ∧ pPos.cfg.alpha ≤ 1 ∧
    0 ≤ (flow_step pPos sPos).h 0 :=
  ⟨by norm_num [pPos], by norm_num [pPos],
    step_depth_nonneg pPos sPos (by norm_num [pPos]) (by norm_num [pPos])
      (by norm_num [pPos, gdPos]) (fun x => by norm_num [pPos, nopsPos])
      (by norm_num [pPos]) (by decide)
      (fun m hm => by norm_num [sPos]) 0 (by decide)⟩

end Landlab
